import Mathlib

/-!
Verification of the offline caching and lifecycle subsystem of the
vtracer-wasm web application: the service worker (precache install,
version-based cache cleanup on activate, per-resource-class fetch routing,
page-to-worker message handling) and the page-side connectivity indicator
state machine.

The definitions below are a shallow embedding of the JavaScript source:
promise chains become explicit state passing, the Cache API becomes
association lists (a named storage of stores keyed by URL), a network fetch
outcome becomes an `Option Response` (`none` models a rejected fetch), and
a thrown exception becomes `Except.error`.
-/

namespace VTracerSW

/-- Snapshot of an HTTP response: status code and body. -/
structure Response where
  status : Nat
  body : String
deriving DecidableEq, Repr

/-- The `response.ok` flag of the Fetch API: status in the 2xx range. -/
def Response.ok (r : Response) : Bool :=
  decide (200 ≤ r.status) && decide (r.status < 300)

/-- Outcome of one network fetch: `none` models a rejected fetch (network
error), `some r` a fetch that resolved with response `r` (which may still
have a non-2xx status). -/
abbrev Net := Option Response

/-- One named cache store: an association of URL keys to stored responses,
earlier entries shadowing later ones with the same key. -/
abbrev CacheStore := List (String × Response)

/-- The Cache API `cache.match url` on a single store. -/
def storeMatch (s : CacheStore) (url : String) : Option Response :=
  match s with
  | [] => none
  | (k, r) :: rest => if k = url then some r else storeMatch rest url

/-- The Cache API `cache.put url r`: overwrite the entry for `url`, keeping
the rest of the store. -/
def storePut (s : CacheStore) (url : String) (r : Response) : CacheStore :=
  match s with
  | [] => [(url, r)]
  | (k, old) :: rest =>
    if k = url then (k, r) :: rest else (k, old) :: storePut rest url r

/-- The whole cache storage: named stores in creation order. -/
abbrev CacheStorage := List (String × CacheStore)

/-- Names of the existing cache stores, in order (`caches.keys()`). -/
def stNames (st : CacheStorage) : List String := st.map Prod.fst

/-- Read view of `caches.open name`: contents of the named store, empty when
the store does not exist. -/
def stOpen (st : CacheStorage) (name : String) : CacheStore :=
  match st with
  | [] => []
  | (n, s) :: rest => if n = name then s else stOpen rest name

/-- Creation effect of `caches.open name`: ensure the named store exists,
creating an empty one at the end when absent. -/
def stEnsure (st : CacheStorage) (name : String) : CacheStorage :=
  match st with
  | [] => [(name, [])]
  | (n, s) :: rest =>
    if n = name then (n, s) :: rest else (n, s) :: stEnsure rest name

/-- `caches.open name` followed by `cache.put url r` on the opened store. -/
def stOpenPut (st : CacheStorage) (name url : String) (r : Response) :
    CacheStorage :=
  match st with
  | [] => [(name, [(url, r)])]
  | (n, s) :: rest =>
    if n = name then (n, storePut s url r) :: rest
    else (n, s) :: stOpenPut rest name url r

/-- `caches.match url`: the first match across all stores in order. -/
def stMatch (st : CacheStorage) (url : String) : Option Response :=
  match st with
  | [] => none
  | (_, s) :: rest =>
    match storeMatch s url with
    | some r => some r
    | none => stMatch rest url

/-- The versioned cache name of the service worker (sw.js line 12). -/
def CACHE_NAME : String := "vtracer-wasm-v1"

/-- The deployment base path of the application (sw.js line 13). -/
def BASE_PATH : String := "/vtracer-wasm"

/-- The precache manifest of core assets (sw.js lines 15-28). -/
def PRECACHE_ASSETS : List String :=
  [BASE_PATH ++ "/",
   BASE_PATH ++ "/index.html",
   BASE_PATH ++ "/site.webmanifest",
   BASE_PATH ++ "/favicon.svg",
   BASE_PATH ++ "/favicon.ico",
   BASE_PATH ++ "/favicon-16x16.png",
   BASE_PATH ++ "/favicon-32x32.png",
   BASE_PATH ++ "/apple-touch-icon.png",
   BASE_PATH ++ "/android-chrome-192x192.png",
   BASE_PATH ++ "/android-chrome-512x512.png",
   BASE_PATH ++ "/VTRacer-WASM-Square.svg",
   BASE_PATH ++ "/VTRacer-WASM-Full.svg"]

/-- Whether one asset fetch outcome would let `cache.addAll` proceed: the
fetch must resolve and the response status must be ok. -/
def assetOk : Net → Bool
  | some r => r.ok
  | none => false

/-- Result of running the install event handler: the cache storage
afterwards, whether `self.skipWaiting()` was invoked, and whether the
promise passed to `event.waitUntil` resolved (the install was reported
to the browser as successful). -/
structure InstallOut where
  st : CacheStorage
  skipWaitingCalled : Bool
  resolved : Bool
deriving DecidableEq, Repr

/-- The Cache API `cache.addAll assets`: an atomic batch operation that
commits every entry exactly when every fetch resolves with an ok status,
and otherwise rejects leaving the storage unchanged. `netFor` gives the
network outcome per asset path and `origin` resolves the relative paths. -/
def addAll (st : CacheStorage) (origin : String) (netFor : String → Net)
    (assets : List String) : Except Unit CacheStorage :=
  if assets.all (fun a => assetOk (netFor a)) then
    Except.ok (assets.foldl (fun acc a =>
      match netFor a with
      | some r => stOpenPut acc CACHE_NAME (origin ++ a) r
      | none => acc) st)
  else Except.error ()

/-- The install event handler (sw.js lines 30-47): open the versioned cache,
`addAll` the precache manifest, then call `skipWaiting`; a `catch` at the end
of the chain logs any error, so the `waitUntil` promise always resolves. -/
def installStep (st : CacheStorage) (origin : String)
    (netFor : String → Net) : InstallOut :=
  let opened := stEnsure st CACHE_NAME
  match addAll opened origin netFor PRECACHE_ASSETS with
  | Except.ok populated =>
    { st := populated, skipWaitingCalled := true, resolved := true }
  | Except.error _ =>
    { st := opened, skipWaitingCalled := false, resolved := true }

/-- Observable actions of the activate event handler, in execution order. -/
inductive ActEvent where
  | deleteCache (name : String)
  | claimClients
deriving DecidableEq, Repr

/-- Result of running the activate event handler: the surviving cache
storage and the ordered list of actions taken. -/
structure ActivateOut where
  st : CacheStorage
  events : List ActEvent
deriving DecidableEq, Repr

/-- The activate event handler (sw.js lines 49-69): list all cache names,
delete every store whose name differs from `CACHE_NAME`, and only after all
deletions complete call `clients.claim()`. -/
def activateStep (st : CacheStorage) : ActivateOut :=
  let doomed := (stNames st).filter (fun n => n != CACHE_NAME)
  { st := st.filter (fun p => p.1 == CACHE_NAME)
    events := doomed.map ActEvent.deleteCache ++ [ActEvent.claimClients] }

/-- An intercepted request, as the fetch handler inspects it: URL origin and
pathname, HTTP method, and whether `request.mode` is `navigate`. -/
structure Request where
  origin : String
  pathname : String
  method : String
  isNavigate : Bool
deriving DecidableEq, Repr

/-- Cache identity of a request: its absolute URL. -/
def Request.url (req : Request) : String := req.origin ++ req.pathname

/-- The static-asset extension list of the fetch handler
(sw.js lines 113-122). -/
def STATIC_EXTS : List String :=
  [".js", ".css", ".svg", ".png", ".jpg", ".jpeg", ".ico", ".webmanifest"]

/-- JavaScript-style `endsWith`, computed on the character lists. -/
def strEndsWith (s suf : String) : Bool := suf.data.isSuffixOf s.data

/-- Whether a pathname falls in the static-asset class. -/
def isStaticPath (p : String) : Bool := STATIC_EXTS.any (fun e => strEndsWith p e)

deriving instance DecidableEq for Except

/-- What the fetch handler did with the event: either it returned without
calling `respondWith` (the request passes through to the network untouched),
or it called `respondWith` with a promise whose outcome is recorded —
`Except.error` for a rejected promise, `Except.ok none` for a promise that
resolved with `undefined` (a `caches.match` miss in a fallback path). -/
inductive Routed where
  | passThrough
  | responded (outcome : Except Unit (Option Response))
deriving DecidableEq, Repr

/-- Whether the routing outcome is observed by the page as a failed fetch:
a `respondWith` promise that rejected, or resolved with no response. -/
def Routed.isFailure : Routed → Bool
  | .responded (Except.ok none) => true
  | .responded (Except.error _) => true
  | _ => false

/-- Result of running the fetch event handler on one request: the routing
outcome, the cache storage afterwards, how many network fetches were
issued, and whether a fetch was triggered whose result was not used for the
response (a background refresh). -/
structure HandleOut where
  routed : Routed
  st : CacheStorage
  fetches : Nat
  bgRefresh : Bool
deriving DecidableEq, Repr

/-- The helper `fetchAndCache` (sw.js lines 152-169): fetch the request;
when the response is ok, put it into the versioned cache before returning
it; a non-ok response is returned without caching; on a rejected fetch fall
back to `caches.match`, rethrowing the error when there is no cached
entry. -/
def fetchAndCache (st : CacheStorage) (url : String) (net : Net) :
    Except Unit Response × CacheStorage :=
  match net with
  | some r =>
    if r.ok then (Except.ok r, stOpenPut st CACHE_NAME url r)
    else (Except.ok r, st)
  | none =>
    match stMatch st url with
    | some c => (Except.ok c, st)
    | none => (Except.error (), st)

/-- Absolute URL of the precached app-shell root document, which the
navigation fallback path looks up. -/
def shellUrl (origin : String) : String := origin ++ BASE_PATH ++ "/"

/-- The fetch event handler (sw.js lines 71-145). Cross-origin and non-GET
requests pass through. Navigation requests are served cache-first with a
background `fetchAndCache` refresh, falling back to the app-shell root on
total failure. Requests for `.wasm` files are strict cache-first. Static
assets are stale-while-revalidate. Everything else is network-first: store
ok responses, fall back to `caches.match` on network failure. `net` is the
outcome the network would give for this request. -/
def handleFetch (selfOrigin : String) (st : CacheStorage) (req : Request)
    (net : Net) : HandleOut :=
  if req.origin ≠ selfOrigin then ⟨.passThrough, st, 0, false⟩
  else if req.method ≠ "GET" then ⟨.passThrough, st, 0, false⟩
  else if req.isNavigate then
    match stMatch st req.url with
    | some cached =>
      let fc := fetchAndCache st req.url net
      ⟨.responded (Except.ok (some cached)), fc.2, 1, true⟩
    | none =>
      match fetchAndCache st req.url net with
      | (Except.ok r, st2) => ⟨.responded (Except.ok (some r)), st2, 1, false⟩
      | (Except.error _, st2) =>
        ⟨.responded (Except.ok (stMatch st2 (shellUrl selfOrigin))), st2, 1, false⟩
  else if strEndsWith req.pathname ".wasm" then
    match stMatch st req.url with
    | some cached => ⟨.responded (Except.ok (some cached)), st, 0, false⟩
    | none =>
      match fetchAndCache st req.url net with
      | (Except.ok r, st2) => ⟨.responded (Except.ok (some r)), st2, 1, false⟩
      | (Except.error e, st2) => ⟨.responded (Except.error e), st2, 1, false⟩
  else if isStaticPath req.pathname then
    let fc := fetchAndCache st req.url net
    match stMatch st req.url with
    | some cached => ⟨.responded (Except.ok (some cached)), fc.2, 1, true⟩
    | none =>
      match fc.1 with
      | Except.ok r => ⟨.responded (Except.ok (some r)), fc.2, 1, false⟩
      | Except.error e => ⟨.responded (Except.error e), fc.2, 1, false⟩
  else
    match net with
    | some r =>
      if r.ok then
        ⟨.responded (Except.ok (some r)), stOpenPut st CACHE_NAME req.url r, 1, false⟩
      else ⟨.responded (Except.ok (some r)), st, 1, false⟩
    | none => ⟨.responded (Except.ok (stMatch st req.url)), st, 1, false⟩

/-- Run the fetch handler on the same request repeatedly, one network
outcome per run, returning the final cache storage and the total number of
network fetches issued across the runs. -/
def handleFetchIter (selfOrigin : String) (st : CacheStorage) (req : Request) :
    List Net → CacheStorage × Nat
  | [] => (st, 0)
  | n :: rest =>
    let out := handleFetch selfOrigin st req n
    let tail := handleFetchIter selfOrigin out.st req rest
    (tail.1, out.fetches + tail.2)

/-- Data carried by a message event, when it is a non-null object. -/
structure MessageData where
  type : String
deriving DecidableEq, Repr

/-- A message event as the worker sees it: possibly-null data and the list
of transferred reply ports. -/
structure MessageEvent where
  data : Option MessageData
  ports : List Unit
deriving DecidableEq, Repr

/-- Observable result of the message event handler: whether `skipWaiting`
was invoked, what was posted on the first reply port, and whether the
handler threw an exception. -/
structure MsgOut where
  skipWaitingCalled : Bool
  reply : Option String
  errored : Bool
deriving DecidableEq, Repr

/-- The message event handler (sw.js lines 176-184): on data of type
SKIP_WAITING call `skipWaiting`; on data of type GET_VERSION post the cache
name on `event.ports[0]` — when no port was transferred, that subscript is
`undefined` and calling `postMessage` on it throws a TypeError. All other
messages are ignored. -/
def onMessage (e : MessageEvent) : MsgOut :=
  let sw := match e.data with
    | some d => d.type == "SKIP_WAITING"
    | none => false
  match e.data with
  | some d =>
    if d.type = "GET_VERSION" then
      match e.ports with
      | _ :: _ => { skipWaitingCalled := sw, reply := some CACHE_NAME, errored := false }
      | [] => { skipWaitingCalled := sw, reply := none, errored := true }
    else { skipWaitingCalled := sw, reply := none, errored := false }
  | none => { skipWaitingCalled := false, reply := none, errored := false }

/-- Page-side connectivity indicator state: whether the full offline
indicator is visible, whether the minimized pill is visible, the
`dismissedUntilReconnect` flag, and whether the minimize timer is armed. -/
structure UIState where
  full : Bool
  pill : Bool
  dismissed : Bool
  timer : Bool
deriving DecidableEq, Repr

/-- `clearMinimizeTimer` of the page script: cancel a pending minimize
timer. -/
def clearMinimizeTimer (s : UIState) : UIState := { s with timer := false }

/-- `scheduleMinimize`: clear any pending timer, then arm the 8-second
minimize timer. -/
def scheduleMinimize (s : UIState) : UIState :=
  { clearMinimizeTimer s with timer := true }

/-- `showIndicator`: a no-op while dismissed-until-reconnect; otherwise show
the full indicator, hide the pill, and re-arm the minimize timer. -/
def showIndicator (s : UIState) : UIState :=
  if s.dismissed then s
  else scheduleMinimize (clearMinimizeTimer { s with full := true, pill := false })

/-- `hideIndicator`: hide the full indicator and cancel the timer. -/
def hideIndicator (s : UIState) : UIState :=
  clearMinimizeTimer { s with full := false }

/-- `showPill`: hide the full indicator, show the minimized pill. -/
def showPill (s : UIState) : UIState := { s with full := false, pill := true }

/-- `hidePill`: hide the minimized pill. -/
def hidePill (s : UIState) : UIState := { s with pill := false }

/-- The window `online` event listener: clear the dismissal flag, hide the
full indicator and the pill. -/
def onlineEvent (s : UIState) : UIState :=
  hidePill (hideIndicator { s with dismissed := false })

/-- The window `offline` event listener: `showIndicator`. -/
def offlineEvent (s : UIState) : UIState := showIndicator s

/-- The `pwa:offline` custom event listener: also `showIndicator`. -/
def pwaOfflineEvent (s : UIState) : UIState := showIndicator s

/-- The `pwa:online` custom event listener: same effect as `online`. -/
def pwaOnlineEvent (s : UIState) : UIState :=
  hidePill (hideIndicator { s with dismissed := false })

/-- The dismiss button handler on the full indicator: set
`dismissedUntilReconnect` and hide both indicators. -/
def offlineCloseClick (s : UIState) : UIState :=
  hidePill (hideIndicator { s with dismissed := true })

/-- The minimize button handler: clear the dismissal flag and collapse to
the pill. -/
def offlineMinimizeClick (s : UIState) : UIState :=
  showPill { s with dismissed := false }

/-- The pill expand handler: clear the dismissal flag, hide the pill and
show the full indicator again. -/
def pillExpandClick (s : UIState) : UIState :=
  showIndicator (hidePill { s with dismissed := false })

/-- The armed minimize timer firing: collapse the full indicator to the
pill. -/
def minimizeTimerFire (s : UIState) : UIState := showPill { s with timer := false }

end VTracerSW

namespace VTracerSW

theorem storeMatch_storePut (s : CacheStore) (url : String) (r : Response) :
    storeMatch (storePut s url r) url = some r := by
  induction s with
  | nil => simp [storePut, storeMatch]
  | cons p rest ih =>
    obtain ⟨k, old⟩ := p
    by_cases h : k = url
    · simp [storePut, storeMatch, h]
    · simp [storePut, storeMatch, h, ih]

theorem stOpen_stOpenPut (st : CacheStorage) (name url : String) (r : Response) :
    stOpen (stOpenPut st name url r) name = storePut (stOpen st name) url r := by
  induction st with
  | nil => simp [stOpenPut, stOpen, storePut]
  | cons p rest ih =>
    obtain ⟨n, s⟩ := p
    by_cases h : n = name
    · simp [stOpenPut, stOpen, h]
    · simp [stOpenPut, stOpen, h, ih]

theorem stMatch_stOpenPut_isSome (st : CacheStorage) (name url : String)
    (r : Response) : (stMatch (stOpenPut st name url r) url).isSome = true := by
  induction st with
  | nil => simp [stOpenPut, stMatch, storePut, storeMatch]
  | cons p rest ih =>
    obtain ⟨n, s⟩ := p
    by_cases h : n = name
    · simp [stOpenPut, stMatch, h, storeMatch_storePut]
    · simp only [stOpenPut, if_neg h]
      cases hm : storeMatch s url with
      | some c => simp [stMatch, hm]
      | none => simp [stMatch, hm, ih]

theorem stOpen_stEnsure_self (st : CacheStorage) (name : String)
    (h : name ∉ stNames st) : stOpen (stEnsure st name) name = [] := by
  induction st with
  | nil => simp [stEnsure, stOpen]
  | cons p rest ih =>
    obtain ⟨n, s⟩ := p
    simp only [stNames, List.map_cons, List.mem_cons] at h
    push_neg at h
    have hne : n ≠ name := h.1.symm
    simp [stEnsure, stOpen, hne, ih (by simpa [stNames] using h.2)]

theorem filter_beq_singleton {l : List String} {c : String}
    (h1 : l.Nodup) (h2 : c ∈ l) : l.filter (fun n => n == c) = [c] := by
  induction l with
  | nil => cases h2
  | cons a l ih =>
    obtain ⟨ha, hn⟩ := List.nodup_cons.mp h1
    rcases List.mem_cons.mp h2 with rfl | hc
    · have hrest : l.filter (fun n => n == c) = [] :=
        List.filter_eq_nil_iff.mpr (fun x hx => by
          simp only [beq_iff_eq]
          exact fun he => ha (he ▸ hx))
      simp [List.filter_cons, hrest]
    · have hne : (a == c) = false := by
        simp only [beq_eq_false_iff_ne]
        exact fun he => ha (he ▸ hc)
      simp [List.filter_cons, hne, ih hn hc]

/-- C1 counterexample: at an install where every precache fetch rejects, the
install step still resolves successfully — the trailing catch swallows the
error — so the claim that a failing entry makes the install be "aborted and
reported as a failure" is false on the code (skipWaiting is merely not
called). -/
theorem c1_counterexample :
    (installStep [] "https://jarettrude.github.io" (fun _ => none)).resolved = true ∧
    (installStep [] "https://jarettrude.github.io" (fun _ => none)).skipWaitingCalled = false :=
  ⟨rfl, rfl⟩

/-- C1 amended: if any precache manifest entry fails to fetch (or resolves
non-ok), no entry is committed to the new version's store — addAll is
atomic, so the store stays empty — and skipWaiting is not invoked; but the
install step itself still resolves successfully because the error is caught
and only logged. -/
theorem c1_install_precache_failure (st : CacheStorage) (origin : String)
    (netFor : String → Net)
    (h1 : CACHE_NAME ∉ stNames st)
    (h2 : ∃ a ∈ PRECACHE_ASSETS, assetOk (netFor a) = false) :
    (installStep st origin netFor).skipWaitingCalled = false ∧
    stOpen (installStep st origin netFor).st CACHE_NAME = [] ∧
    (installStep st origin netFor).resolved = true := by
  obtain ⟨a, ha, hfail⟩ := h2
  have hall : (PRECACHE_ASSETS.all (fun a => assetOk (netFor a))) = false :=
    List.all_eq_false.mpr ⟨a, ha, by simp [hfail]⟩
  simp [installStep, addAll, hall, stOpen_stEnsure_self st CACHE_NAME h1]

/-- C1 witness: the amended statement evaluated at a concrete failing
install. -/
theorem c1_install_precache_failure_witness :
    (installStep [] "https://jarettrude.github.io" (fun _ => none)).skipWaitingCalled = false ∧
    stOpen (installStep [] "https://jarettrude.github.io" (fun _ => none)).st CACHE_NAME = [] ∧
    (installStep [] "https://jarettrude.github.io" (fun _ => none)).resolved = true :=
  c1_install_precache_failure [] "https://jarettrude.github.io" (fun _ => none)
    (by simp [stNames]) ⟨BASE_PATH ++ "/", by simp [PRECACHE_ASSETS], rfl⟩

/-- C2 counterexample: a GET_VERSION message with no reply port makes the
handler throw a TypeError (postMessage on an undefined port) instead of
being a no-op, so the claim that such a query raises no error is false on
the code. -/
theorem c2_counterexample :
    (onMessage { data := some { type := "GET_VERSION" }, ports := [] }).errored = true :=
  rfl

/-- C2 amended: messages with null data or an unrecognized type are ignored
without error; a GET_VERSION message with a reply port is answered with the
cache name; but a GET_VERSION message with no reply port raises a TypeError
in the handler rather than being a silent no-op (it still sends no
reply). -/
theorem c2_message_handling (e : MessageEvent) :
    (e.data = none →
      onMessage e = { skipWaitingCalled := false, reply := none, errored := false }) ∧
    (∀ d, e.data = some d → d.type ≠ "SKIP_WAITING" → d.type ≠ "GET_VERSION" →
      onMessage e = { skipWaitingCalled := false, reply := none, errored := false }) ∧
    (e.data = some { type := "GET_VERSION" } → e.ports = [] →
      (onMessage e).errored = true ∧ (onMessage e).reply = none) ∧
    (∀ p ports, e.data = some { type := "GET_VERSION" } → e.ports = p :: ports →
      onMessage e = { skipWaitingCalled := false, reply := some CACHE_NAME, errored := false }) := by
  obtain ⟨data, ports⟩ := e
  refine ⟨?_, ?_, ?_, ?_⟩
  · intro hd
    subst hd
    simp [onMessage]
  · intro d hd h1 h2
    subst hd
    have hb1 : (d.type == "SKIP_WAITING") = false := beq_eq_false_iff_ne.mpr h1
    simp [onMessage, hb1, h2]
  · intro hd hp
    subst hd
    subst hp
    simp [onMessage]
  · intro p ps hd hp
    subst hd
    subst hp
    simp [onMessage]

/-- C2 witness: the amended statement at a concrete GET_VERSION query
carrying one reply port. -/
theorem c2_message_handling_witness :
    onMessage { data := some { type := "GET_VERSION" }, ports := [()] }
      = { skipWaitingCalled := false, reply := some CACHE_NAME, errored := false } :=
  (c2_message_handling { data := some { type := "GET_VERSION" }, ports := [()] }).2.2.2
    () [] rfl rfl

/-- C9: whenever every precache manifest fetch resolves with an ok status,
the install handler itself calls skipWaiting (and the install resolves), so
each freshly installed version requests immediate activation on its own —
independent of any page message or of tabs closing, since `installStep`
takes no message input at all. -/
theorem c9_skip_waiting_on_success (st : CacheStorage) (origin : String)
    (netFor : String → Net)
    (h : ∀ a ∈ PRECACHE_ASSETS, assetOk (netFor a) = true) :
    (installStep st origin netFor).skipWaitingCalled = true ∧
    (installStep st origin netFor).resolved = true := by
  have hall : (PRECACHE_ASSETS.all (fun a => assetOk (netFor a))) = true :=
    List.all_eq_true.mpr (fun a hx => h a hx)
  simp [installStep, addAll, hall]

/-- C9 witness: a concrete install where every asset fetch returns 200. -/
theorem c9_skip_waiting_on_success_witness :
    (installStep [] "https://jarettrude.github.io"
        (fun _ => some { status := 200, body := "" })).skipWaitingCalled = true ∧
    (installStep [] "https://jarettrude.github.io"
        (fun _ => some { status := 200, body := "" })).resolved = true :=
  c9_skip_waiting_on_success [] "https://jarettrude.github.io"
    (fun _ => some { status := 200, body := "" }) (fun _ _ => rfl)

end VTracerSW

namespace VTracerSW

theorem stNames_filter (st : CacheStorage) (c : String) :
    stNames (st.filter (fun p => p.1 == c)) = (stNames st).filter (fun n => n == c) := by
  induction st with
  | nil => simp [stNames]
  | cons p rest ih =>
    cases h : (p.1 == c) with
    | true => simp [stNames, List.filter_cons, h] at ih ⊢; exact ih
    | false => simp [stNames, List.filter_cons, h] at ih ⊢; exact ih

/-- C4: on activation, every cache store whose name differs from the
current version's cache name is deleted, `clients.claim` runs strictly
after all the deletions (it is the last event), and enumerating the
surviving stores yields exactly the one named for the current version. -/
theorem c4_activation_cleanup (st : CacheStorage)
    (h1 : (stNames st).Nodup) (h2 : CACHE_NAME ∈ stNames st) :
    stNames (activateStep st).st = [CACHE_NAME] ∧
    (∀ n, ActEvent.deleteCache n ∈ (activateStep st).events ↔
      (n ∈ stNames st ∧ n ≠ CACHE_NAME)) ∧
    (activateStep st).events.getLast? = some ActEvent.claimClients ∧
    (∀ e ∈ (activateStep st).events.dropLast, e ≠ ActEvent.claimClients) := by
  have hst : (activateStep st).st = st.filter (fun p => p.1 == CACHE_NAME) := rfl
  have hev : (activateStep st).events
      = ((stNames st).filter (fun n => n != CACHE_NAME)).map ActEvent.deleteCache
        ++ [ActEvent.claimClients] := rfl
  refine ⟨?_, ?_, ?_, ?_⟩
  · rw [hst, stNames_filter, filter_beq_singleton h1 h2]
  · intro n
    rw [hev]
    simp [List.mem_append, List.mem_map, List.mem_filter, bne_iff_ne]
  · rw [hev, List.getLast?_concat]
  · rw [hev, List.dropLast_concat]
    intro e he
    obtain ⟨a, _, hae⟩ := List.mem_map.mp he
    rw [← hae]
    intro hcontra
    cases hcontra

/-- C4 witness: activation over a storage holding an old store and the
current one. -/
theorem c4_activation_cleanup_witness :
    stNames (activateStep [("vtracer-wasm-v0", []), (CACHE_NAME, [])]).st = [CACHE_NAME] ∧
    (ActEvent.deleteCache "vtracer-wasm-v0"
        ∈ (activateStep [("vtracer-wasm-v0", []), (CACHE_NAME, [])]).events ↔
      ("vtracer-wasm-v0" ∈ stNames [("vtracer-wasm-v0", []), (CACHE_NAME, [])] ∧
        "vtracer-wasm-v0" ≠ CACHE_NAME)) ∧
    (activateStep [("vtracer-wasm-v0", []), (CACHE_NAME, [])]).events.getLast?
      = some ActEvent.claimClients := by
  have h := c4_activation_cleanup [("vtracer-wasm-v0", []), (CACHE_NAME, [])]
    (by simp [stNames, CACHE_NAME]) (by simp [stNames])
  exact ⟨h.1, h.2.1 "vtracer-wasm-v0", h.2.2.1⟩

/-- C5: the router intercepts only same-origin GET requests; every
cross-origin request and every non-GET request is passed through with no
respondWith, no cache modification, and no fetch issued by the worker. -/
theorem c5_pass_through (o : String) (st : CacheStorage) (req : Request)
    (net : Net) (h : req.origin ≠ o ∨ req.method ≠ "GET") :
    handleFetch o st req net = ⟨Routed.passThrough, st, 0, false⟩ := by
  rcases h with h | h
  · simp [handleFetch, h]
  · by_cases ho : req.origin = o
    · simp [handleFetch, ho, h]
    · simp [handleFetch, ho]

/-- C5 witness: a cross-origin GET request passes through untouched. -/
theorem c5_pass_through_witness :
    handleFetch "https://jarettrude.github.io" []
      { origin := "https://evil.example", pathname := "/x", method := "GET",
        isNavigate := false } none
      = ⟨Routed.passThrough, [], 0, false⟩ :=
  c5_pass_through "https://jarettrude.github.io" []
    { origin := "https://evil.example", pathname := "/x", method := "GET",
      isNavigate := false } none (Or.inl (by decide))

/-- C8: the dismiss action enters dismissed-until-reconnect with the full
indicator and the pill both hidden; while dismissed, both kinds of offline
events leave the state entirely unchanged (no indicator is re-shown); and
both kinds of online events, from any state, clear the dismissal flag and
hide both indicators. -/
theorem c8_connectivity_dismissal (s : UIState) :
    offlineCloseClick s
      = { full := false, pill := false, dismissed := true, timer := false } ∧
    offlineEvent { s with dismissed := true } = { s with dismissed := true } ∧
    pwaOfflineEvent { s with dismissed := true } = { s with dismissed := true } ∧
    onlineEvent s
      = { full := false, pill := false, dismissed := false, timer := false } ∧
    pwaOnlineEvent s
      = { full := false, pill := false, dismissed := false, timer := false } := by
  refine ⟨?_, ?_, ?_, ?_, ?_⟩ <;>
    simp [offlineCloseClick, offlineEvent, pwaOfflineEvent, onlineEvent,
      pwaOnlineEvent, showIndicator, hideIndicator, hidePill, clearMinimizeTimer]

end VTracerSW

namespace VTracerSW

theorem handleFetch_wasm_hit (o : String) (st : CacheStorage) (req : Request)
    (net : Net) (c : Response)
    (h1 : req.origin = o) (h2 : req.method = "GET") (h3 : req.isNavigate = false)
    (h4 : strEndsWith req.pathname ".wasm" = true)
    (h5 : stMatch st req.url = some c) :
    handleFetch o st req net
      = ⟨Routed.responded (Except.ok (some c)), st, 0, false⟩ := by
  simp [handleFetch, h1, h2, h3, h4, h5]

theorem handleFetchIter_wasm_cached (o : String) (req : Request)
    (h1 : req.origin = o) (h2 : req.method = "GET") (h3 : req.isNavigate = false)
    (h4 : strEndsWith req.pathname ".wasm" = true) :
    ∀ (nets : List Net) (st : CacheStorage),
      (stMatch st req.url).isSome = true →
      handleFetchIter o st req nets = (st, 0) := by
  intro nets
  induction nets with
  | nil => intro st _; rfl
  | cons n rest ih =>
    intro st h
    obtain ⟨c, hc⟩ := Option.isSome_iff_exists.mp h
    have hstep := handleFetch_wasm_hit o st req n c h1 h2 h3 h4 hc
    simp only [handleFetchIter, hstep]
    simp [ih st h]

/-- C3: for a same-origin GET request whose path ends in .wasm and which has
no cached entry yet, the first request issues exactly one network fetch and
(the response being ok) stores it, so the cache afterwards holds an entry
for that URL; and from that state, any sequence of further identical
requests issues zero network fetches and leaves the cache unchanged. -/
theorem c3_wasm_cache_first (o : String) (st : CacheStorage) (req : Request)
    (r : Response)
    (h1 : req.origin = o) (h2 : req.method = "GET") (h3 : req.isNavigate = false)
    (h4 : strEndsWith req.pathname ".wasm" = true)
    (h5 : stMatch st req.url = none) (h6 : r.ok = true) :
    (handleFetch o st req (some r)).fetches = 1 ∧
    (stMatch (handleFetch o st req (some r)).st req.url).isSome = true ∧
    ∀ nets : List Net,
      handleFetchIter o (handleFetch o st req (some r)).st req nets
        = ((handleFetch o st req (some r)).st, 0) := by
  have hout : handleFetch o st req (some r)
      = ⟨Routed.responded (Except.ok (some r)),
          stOpenPut st CACHE_NAME req.url r, 1, false⟩ := by
    simp [handleFetch, h1, h2, h3, h4, h5, fetchAndCache, h6]
  rw [hout]
  refine ⟨rfl, stMatch_stOpenPut_isSome st CACHE_NAME req.url r, ?_⟩
  intro nets
  exact handleFetchIter_wasm_cached o req h1 h2 h3 h4 nets _
    (stMatch_stOpenPut_isSome st CACHE_NAME req.url r)

/-- C3 witness: a concrete engine-asset request: one fetch on the first
request, then a two-request tail with zero fetches. -/
theorem c3_wasm_cache_first_witness :
    (handleFetch "https://jarettrude.github.io" []
      { origin := "https://jarettrude.github.io", pathname := "/vtracer-wasm/vtracer.wasm",
        method := "GET", isNavigate := false }
      (some { status := 200, body := "wasm" })).fetches = 1 ∧
    (stMatch (handleFetch "https://jarettrude.github.io" []
      { origin := "https://jarettrude.github.io", pathname := "/vtracer-wasm/vtracer.wasm",
        method := "GET", isNavigate := false }
      (some { status := 200, body := "wasm" })).st
      (Request.url
        { origin := "https://jarettrude.github.io",
          pathname := "/vtracer-wasm/vtracer.wasm", method := "GET",
          isNavigate := false })).isSome = true ∧
    handleFetchIter "https://jarettrude.github.io"
      (handleFetch "https://jarettrude.github.io" []
        { origin := "https://jarettrude.github.io", pathname := "/vtracer-wasm/vtracer.wasm",
          method := "GET", isNavigate := false }
        (some { status := 200, body := "wasm" })).st
      { origin := "https://jarettrude.github.io", pathname := "/vtracer-wasm/vtracer.wasm",
        method := "GET", isNavigate := false }
      [none, some { status := 200, body := "wasm" }]
      = ((handleFetch "https://jarettrude.github.io" []
          { origin := "https://jarettrude.github.io", pathname := "/vtracer-wasm/vtracer.wasm",
            method := "GET", isNavigate := false }
          (some { status := 200, body := "wasm" })).st, 0) := by
  have h := c3_wasm_cache_first "https://jarettrude.github.io" []
    { origin := "https://jarettrude.github.io", pathname := "/vtracer-wasm/vtracer.wasm",
      method := "GET", isNavigate := false }
    { status := 200, body := "wasm" } rfl rfl rfl rfl rfl rfl
  exact ⟨h.1, h.2.1, h.2.2 [none, some { status := 200, body := "wasm" }]⟩

/-- C6 counterexample: in the default network-first branch, a fetch that
resolves with a non-ok response (status 500) is returned to the caller but
not stored — the cache stays empty — so the claim that on network success
the response is stored under the request identity before being returned is
false on the code. -/
theorem c6_counterexample :
    (handleFetch "https://jarettrude.github.io" []
      { origin := "https://jarettrude.github.io", pathname := "/vtracer-wasm/api/data",
        method := "GET", isNavigate := false }
      (some { status := 500, body := "err" })).routed
      = Routed.responded (Except.ok (some { status := 500, body := "err" })) ∧
    (handleFetch "https://jarettrude.github.io" []
      { origin := "https://jarettrude.github.io", pathname := "/vtracer-wasm/api/data",
        method := "GET", isNavigate := false }
      (some { status := 500, body := "err" })).st = [] :=
  ⟨rfl, rfl⟩

/-- C6 amended: in the default (network-first) path — a same-origin GET
request that is not a navigation and matches no special extension — a
resolved ok response is cloned and stored under the request identity before
being returned; a resolved non-ok response is returned without being
stored; on network failure the cached match is returned; and when no cached
match exists the handler resolves with no response, which the caller
observes as a failed fetch. -/
theorem c6_network_first (o : String) (st : CacheStorage) (req : Request)
    (h1 : req.origin = o) (h2 : req.method = "GET") (h3 : req.isNavigate = false)
    (h4 : strEndsWith req.pathname ".wasm" = false)
    (h5 : isStaticPath req.pathname = false) :
    (∀ r : Response, r.ok = true →
      handleFetch o st req (some r)
        = ⟨Routed.responded (Except.ok (some r)),
            stOpenPut st CACHE_NAME req.url r, 1, false⟩) ∧
    (∀ r : Response, r.ok = false →
      handleFetch o st req (some r)
        = ⟨Routed.responded (Except.ok (some r)), st, 1, false⟩) ∧
    (handleFetch o st req none).routed
      = Routed.responded (Except.ok (stMatch st req.url)) ∧
    (stMatch st req.url = none →
      (handleFetch o st req none).routed.isFailure = true) := by
  refine ⟨?_, ?_, ?_, ?_⟩
  · intro r hr
    simp [handleFetch, h1, h2, h3, h4, h5, hr]
  · intro r hr
    simp [handleFetch, h1, h2, h3, h4, h5, hr]
  · simp [handleFetch, h1, h2, h3, h4, h5]
  · intro hm
    simp [handleFetch, h1, h2, h3, h4, h5, hm, Routed.isFailure]

/-- C6 witness: the amended statement at a concrete default-branch request,
for an ok response and for a rejected fetch over an empty cache. -/
theorem c6_network_first_witness :
    handleFetch "https://jarettrude.github.io" []
      { origin := "https://jarettrude.github.io", pathname := "/vtracer-wasm/api/data",
        method := "GET", isNavigate := false }
      (some { status := 200, body := "d" })
      = ⟨Routed.responded (Except.ok (some { status := 200, body := "d" })),
          stOpenPut [] CACHE_NAME
            (Request.url
              { origin := "https://jarettrude.github.io",
                pathname := "/vtracer-wasm/api/data", method := "GET",
                isNavigate := false })
            { status := 200, body := "d" }, 1, false⟩ ∧
    (handleFetch "https://jarettrude.github.io" []
      { origin := "https://jarettrude.github.io", pathname := "/vtracer-wasm/api/data",
        method := "GET", isNavigate := false } none).routed.isFailure = true := by
  have h := c6_network_first "https://jarettrude.github.io" []
    { origin := "https://jarettrude.github.io", pathname := "/vtracer-wasm/api/data",
      method := "GET", isNavigate := false } rfl rfl rfl rfl rfl
  exact ⟨h.1 { status := 200, body := "d" } rfl, h.2.2.2 rfl⟩

/-- C7: for a same-origin GET navigation request: when a cached match
exists it is returned as the response while a background refresh-and-store
is triggered (and when that refresh resolves ok, the versioned store
afterwards holds the fresh network response under the request identity);
when no cached match exists and the network fetch fails, the precached
app-shell root document is returned instead. -/
theorem c7_navigation (o : String) (st : CacheStorage) (req : Request)
    (net : Net)
    (h1 : req.origin = o) (h2 : req.method = "GET") (h3 : req.isNavigate = true) :
    (∀ c, stMatch st req.url = some c →
      (handleFetch o st req net).routed = Routed.responded (Except.ok (some c)) ∧
      (handleFetch o st req net).bgRefresh = true ∧
      ∀ r, net = some r → r.ok = true →
        storeMatch (stOpen (handleFetch o st req net).st CACHE_NAME) req.url
          = some r) ∧
    (stMatch st req.url = none → net = none →
      ∀ shell, stMatch st (shellUrl o) = some shell →
        (handleFetch o st req net).routed
          = Routed.responded (Except.ok (some shell))) := by
  constructor
  · intro c hc
    have hout : handleFetch o st req net
        = ⟨Routed.responded (Except.ok (some c)),
            (fetchAndCache st req.url net).2, 1, true⟩ := by
      simp [handleFetch, h1, h2, h3, hc]
    rw [hout]
    refine ⟨rfl, rfl, ?_⟩
    intro r hn hr
    subst hn
    simp only [fetchAndCache, hr, if_true]
    rw [stOpen_stOpenPut, storeMatch_storePut]
  · intro hm hn shell hshell
    subst hn
    simp [handleFetch, h1, h2, h3, hm, fetchAndCache, hshell]

/-- C7 witness: a concrete navigation request with a cached page and an ok
background refresh. -/
theorem c7_navigation_witness :
    (handleFetch "https://jarettrude.github.io"
      [(CACHE_NAME, [("https://jarettrude.github.io/vtracer-wasm/page", { status := 200, body := "old" })])]
      { origin := "https://jarettrude.github.io", pathname := "/vtracer-wasm/page",
        method := "GET", isNavigate := true }
      (some { status := 200, body := "new" })).routed
      = Routed.responded (Except.ok (some { status := 200, body := "old" })) ∧
    (handleFetch "https://jarettrude.github.io"
      [(CACHE_NAME, [("https://jarettrude.github.io/vtracer-wasm/page", { status := 200, body := "old" })])]
      { origin := "https://jarettrude.github.io", pathname := "/vtracer-wasm/page",
        method := "GET", isNavigate := true }
      (some { status := 200, body := "new" })).bgRefresh = true ∧
    storeMatch (stOpen (handleFetch "https://jarettrude.github.io"
      [(CACHE_NAME, [("https://jarettrude.github.io/vtracer-wasm/page", { status := 200, body := "old" })])]
      { origin := "https://jarettrude.github.io", pathname := "/vtracer-wasm/page",
        method := "GET", isNavigate := true }
      (some { status := 200, body := "new" })).st CACHE_NAME)
      (Request.url
        { origin := "https://jarettrude.github.io",
          pathname := "/vtracer-wasm/page", method := "GET", isNavigate := true })
      = some { status := 200, body := "new" } := by
  have h := (c7_navigation "https://jarettrude.github.io"
    [(CACHE_NAME, [("https://jarettrude.github.io/vtracer-wasm/page", { status := 200, body := "old" })])]
    { origin := "https://jarettrude.github.io", pathname := "/vtracer-wasm/page",
      method := "GET", isNavigate := true }
    (some { status := 200, body := "new" }) rfl rfl rfl).1
    { status := 200, body := "old" } rfl
  exact ⟨h.1, h.2.1, h.2.2 { status := 200, body := "new" } rfl rfl⟩

/-- C10: a network response with a non-ok status is never written to the
cache by any routing path: fetchAndCache returns it without storing it, and
the fetch handler leaves the cache storage untouched on every branch when
the network outcome is a non-ok response, so no cached entry is ever
overwritten by an error response. -/
theorem c10_no_error_caching (o url : String) (st : CacheStorage)
    (req : Request) (r : Response) (h : r.ok = false) :
    (fetchAndCache st url (some r)).2 = st ∧
    (fetchAndCache st url (some r)).1 = Except.ok r ∧
    (handleFetch o st req (some r)).st = st := by
  refine ⟨by simp [fetchAndCache, h], by simp [fetchAndCache, h], ?_⟩
  simp only [handleFetch]
  split_ifs with ho hm hn hw hs hr
  · rfl
  · rfl
  · cases hc : stMatch st req.url with
    | some c => simp [hc, fetchAndCache, h]
    | none => simp [hc, fetchAndCache, h]
  · cases hc : stMatch st req.url with
    | some c => simp [hc]
    | none => simp [hc, fetchAndCache, h]
  · cases hc : stMatch st req.url with
    | some c => simp [hc, fetchAndCache, h]
    | none => simp [hc, fetchAndCache, h]
  · simp [h] at hr
  · rfl

/-- C10 witness: a 404 response in the wasm path over an empty cache stores
nothing. -/
theorem c10_no_error_caching_witness :
    (fetchAndCache [] "https://jarettrude.github.io/vtracer-wasm/vtracer.wasm"
      (some { status := 404, body := "nf" })).2 = [] ∧
    (fetchAndCache [] "https://jarettrude.github.io/vtracer-wasm/vtracer.wasm"
      (some { status := 404, body := "nf" })).1
      = Except.ok { status := 404, body := "nf" } ∧
    (handleFetch "https://jarettrude.github.io" []
      { origin := "https://jarettrude.github.io", pathname := "/vtracer-wasm/vtracer.wasm",
        method := "GET", isNavigate := false }
      (some { status := 404, body := "nf" })).st = [] :=
  c10_no_error_caching "https://jarettrude.github.io"
    "https://jarettrude.github.io/vtracer-wasm/vtracer.wasm" []
    { origin := "https://jarettrude.github.io", pathname := "/vtracer-wasm/vtracer.wasm",
      method := "GET", isNavigate := false }
    { status := 404, body := "nf" } rfl

end VTracerSW
